import Mathlib

/-!
Shallow embedding of the WhatsApp bot command core (single-file source):
per-sender rate limiting, media extraction, sticker transcoding with
temp-file cleanup, the 5-minute group-metadata cache, the command table and
the event-router boundary.  External collaborators (the Baileys transport,
sharp, ffmpeg, Gemini, gTTS) are modelled as oracle function parameters;
machine buffers are lists of bytes; wall-clock time is a natural number of
milliseconds.
-/

namespace BotWA

/-- A byte buffer (`Buffer` in node). -/
structure Buffer where
  data : List Nat
  deriving DecidableEq

def Buffer.size (b : Buffer) : Nat := b.data.length

/-- A thrown JS `Error`, identified by its message. -/
structure JsError where
  message : String
  deriving DecidableEq

/-! ### Association-list maps (JS `Map`) -/

def alGet {β : Type} (k : String) (m : List (String × β)) : Option β :=
  (m.find? (fun p => p.1 == k)).map (fun p => p.2)

def alSet {β : Type} (k : String) (v : β) (m : List (String × β)) : List (String × β) :=
  (k, v) :: m.filter (fun p => !(p.1 == k))

def alDel {β : Type} (k : String) (m : List (String × β)) : List (String × β) :=
  m.filter (fun p => !(p.1 == k))

/-! ### Rate limiting (`rateLimits`, `RATE_LIMIT`, `checkRateLimit`) -/

/-- `const RATE_LIMIT = { max: 5, windowMs: 60 * 1000 }`. -/
structure RateLimitCfg where
  max : Nat
  windowMs : Nat

def RATE_LIMIT : RateLimitCfg := ⟨5, 60 * 1000⟩

/-- One per-sender entry of the `rateLimits` map: `{ count, resetTime }`. -/
structure RateEntry where
  count : Nat
  resetTime : Nat
  deriving DecidableEq

deriving instance DecidableEq for Except

/-- Outcome of `checkRateLimit`: the thrown-or-ok result together with the
`rateLimits` map after the call (mutations are visible even on throw). -/
structure RateOut where
  result : Except JsError Unit
  rl : List (String × RateEntry)
  deriving DecidableEq

def rateLimitMessage : String :=
  "Limite de comandos atingido. Tente novamente em alguns minutos."

/-- `async function checkRateLimit(sender)`.  The stored entry object is
mutated in place in the source; when a window reset happens on an entry that
was already in the map, that mutation is visible in the map even if the call
then throws, which the `rl1` step reproduces. -/
def checkRateLimit (now : Nat) (sender : String) (rl : List (String × RateEntry)) : RateOut :=
  let stored := alGet sender rl
  let ul0 := stored.getD ⟨0, now⟩
  let ul1 := if ul0.resetTime < now then (⟨0, now + RATE_LIMIT.windowMs⟩ : RateEntry) else ul0
  let rl1 := if stored.isSome ∧ ul0.resetTime < now then alSet sender ul1 rl else rl
  if RATE_LIMIT.max ≤ ul1.count then
    ⟨.error ⟨rateLimitMessage⟩, rl1⟩
  else
    ⟨.ok (), alSet sender ⟨ul1.count + 1, ul1.resetTime⟩ rl1⟩

/-- Fold a list of call instants through `checkRateLimit` for one sender,
counting how many calls succeed. -/
def runRL (sender : String) : List Nat → List (String × RateEntry) → Nat × List (String × RateEntry)
  | [], rl => (0, rl)
  | t :: ts, rl =>
    let out := checkRateLimit t sender rl
    let r := runRL sender ts out.rl
    (match out.result with
     | .ok _ => r.fst + 1
     | .error _ => r.fst, r.snd)

/-! ### Inbound message model and `getMediaBuffer` -/

/-- A media node of a message (`imageMessage` / `videoMessage`): the bytes it
downloads to (`downloadContentFromMessage` + `streamToBuffer` are modelled as
yielding these bytes) and its optional `caption`. -/
structure MediaRef where
  bytes : Buffer
  caption : Option String
  deriving DecidableEq

/-- The part of a message content `getMediaBuffer` inspects after the
quoted-message swap: its `imageMessage` and `videoMessage` fields. -/
structure MediaView where
  imageMessage : Option MediaRef
  videoMessage : Option MediaRef
  deriving DecidableEq

/-- `contextInfo` of an extended text message. -/
structure CtxInfo where
  quotedMessage : Option MediaView
  deriving DecidableEq

/-- `extendedTextMessage` node. -/
structure ExtTextMsg where
  text : Option String
  contextInfo : Option CtxInfo
  deriving DecidableEq

/-- `msg.message`: the fields the router and the handlers read. -/
structure MsgContent where
  conversation : Option String
  imageMessage : Option MediaRef
  videoMessage : Option MediaRef
  extendedTextMessage : Option ExtTextMsg
  deriving DecidableEq

inductive MediaKind where
  | image
  | video
  deriving DecidableEq

/-- Result of `getMediaBuffer`: `{ buffer, kind }`. -/
structure Media where
  buffer : Buffer
  kind : MediaKind
  deriving DecidableEq

/-- `message?.extendedTextMessage?.contextInfo?.quotedMessage`. -/
def quotedOf (m : MsgContent) : Option MediaView :=
  m.extendedTextMessage.bind (fun e => e.contextInfo.bind (fun c => c.quotedMessage))

def mediaTooLargeMessage : String := "Mídia excede o limite de 10MB"

/-- `async function getMediaBuffer(msg)`: if a quoted message is present the
whole lookup switches to it, then `imageMessage` is tried before
`videoMessage`; a found attachment larger than 10 MiB throws. -/
def getMediaBuffer (msg : MsgContent) : Except JsError (Option Media) :=
  let message : MediaView :=
    match quotedOf msg with
    | some q => q
    | none => ⟨msg.imageMessage, msg.videoMessage⟩
  match message.imageMessage with
  | some ref =>
    if 10 * 1024 * 1024 < ref.bytes.size then .error ⟨mediaTooLargeMessage⟩
    else .ok (some ⟨ref.bytes, .image⟩)
  | none =>
    match message.videoMessage with
    | some ref =>
      if 10 * 1024 * 1024 < ref.bytes.size then .error ⟨mediaTooLargeMessage⟩
      else .ok (some ⟨ref.bytes, .video⟩)
    | none => .ok none

/-! ### Group metadata cache (`groupMetadataCache`, `getGroupAdmins`) -/

/-- A group participant: `{ id, admin }` where `admin` is `'admin'`,
`'superadmin'` or null. -/
structure Participant where
  id : String
  admin : Option String
  deriving DecidableEq

/-- A group-metadata record as returned by `sock.groupMetadata`. -/
structure GroupMeta where
  participants : List Participant
  deriving DecidableEq

/-- A `groupMetadataCache` entry together with the instant at which the
`setTimeout` scheduled at its insertion fires and deletes it. -/
structure CacheEntry where
  meta : GroupMeta
  expireAt : Nat
  deriving DecidableEq

/-- `5 * 60 * 1000` — the eviction delay passed to `setTimeout`. -/
def CACHE_TTL_MS : Nat := 5 * 60 * 1000

/-- `groupMetadataCache.get(jid)` observed at instant `now`: the deletion
timer is modelled as firing exactly at its deadline, so an entry is visible
only strictly before `expireAt`. -/
def cacheGetAt (now : Nat) (jid : String) (cache : List (String × CacheEntry)) :
    Option CacheEntry :=
  match alGet jid cache with
  | some e => if now < e.expireAt then some e else none
  | none => none

/-- `meta.participants.filter(p => p.admin).map(p => p.id)`. -/
def adminIds (meta : GroupMeta) : List String :=
  (meta.participants.filter (fun p => p.admin.isSome)).map (fun p => p.id)

/-- `async function getGroupAdmins(jid)`: on a cache miss the roster is
fetched from the transport (oracle `fetch`, indexed by the current instant),
stored, and scheduled for deletion `CACHE_TTL_MS` later; the metadata is then
read back from the cache (modelled directly, as the read follows the set with
no intervening step). -/
def getGroupAdmins (fetch : Nat → String → GroupMeta) (now : Nat) (jid : String)
    (cache : List (String × CacheEntry)) : List String × List (String × CacheEntry) :=
  match cacheGetAt now jid cache with
  | some e => (adminIds e.meta, cache)
  | none =>
    let meta := fetch now jid
    (adminIds meta, alSet jid ⟨meta, now + CACHE_TTL_MS⟩ cache)

/-! ### Sticker transcoding (`imageToStickerWebp`, `videoToStickerWebp`) -/

/-- `fit` policy of the square resize: `'cover'` or `'contain'`. -/
inductive FitMode where
  | cover
  | contain
  deriving DecidableEq

/-- The `opts` of `imageToStickerWebp`: `{ size = 512, mode = 'cover' }`. -/
structure ImageOpts where
  size : Nat
  mode : FitMode
  deriving DecidableEq

/-- Configuration of the sharp pipeline
`resize(size, size, { fit: mode, ... }).webp({ quality: 90, effort: 4 })`. -/
structure ImageEncodeJob where
  width : Nat
  height : Nat
  fit : FitMode
  quality : Nat
  deriving DecidableEq

def imageJobOf (opts : ImageOpts) : ImageEncodeJob :=
  ⟨opts.size, opts.size, opts.mode, 90⟩

def stickerTooLargeImageMessage : String := "Figurinha estática excede o limite de 1MB"

def imageStickerFailMessage : String := "Falha ao processar imagem para figurinha"

/-- The `try` block of `imageToStickerWebp`: run the sharp pipeline (oracle
`encode`), then throw if the result exceeds 1 MiB. -/
def imageStickerTry (encode : ImageEncodeJob → Buffer → Except JsError Buffer)
    (imageBuffer : Buffer) (opts : ImageOpts) : Except JsError Buffer :=
  match encode (imageJobOf opts) imageBuffer with
  | .error e => .error e
  | .ok webpBuffer =>
    if 1024 * 1024 < webpBuffer.size then .error ⟨stickerTooLargeImageMessage⟩
    else .ok webpBuffer

/-- `async function imageToStickerWebp(imageBuffer, opts)`: the `catch`
rethrows every failure — the size error included — as the generic
image-processing failure. -/
def imageToStickerWebp (encode : ImageEncodeJob → Buffer → Except JsError Buffer)
    (imageBuffer : Buffer) (opts : ImageOpts) : Except JsError Buffer :=
  match imageStickerTry encode imageBuffer opts with
  | .ok b => .ok b
  | .error _ => .error ⟨imageStickerFailMessage⟩

/-- The `opts` of `videoToStickerWebp`:
`{ maxDur = 8, fps = 10, size = 512, mode = 'cover' }`. -/
structure StickerOpts where
  maxDur : Nat
  fps : Nat
  size : Nat
  mode : FitMode
  deriving DecidableEq

/-- The ffmpeg invocation `videoToStickerWebp` assembles: input truncation
(`-t 8`), audio stripping (`.noAudio()` and `-an`), the square scale/crop or
scale/overlay filter with its `fps` stage, and looping webp output
(`-loop 0`). -/
structure FfmpegJob where
  truncateSeconds : Nat
  noAudio : Bool
  fps : Nat
  width : Nat
  height : Nat
  loop : Bool
  deriving DecidableEq

/-- The job built from `opts`.  The truncation is the hardcoded `-t 8`
(`opts.maxDur` is accepted but never used by the source), the filter uses
`opts.fps` and an `opts.size`-square canvas for both fit modes. -/
def videoJobSpec (opts : StickerOpts) : FfmpegJob :=
  ⟨8, true, opts.fps, opts.size, opts.size, true⟩

def stickerTooLargeVideoMessage : String := "Figurinha animada excede o limite de 1MB"

def videoFailPrefix : String := "Falha ao criar figurinha de vídeo: "

/-- Result of `videoToStickerWebp`: the returned-or-thrown value and the
temp-file system (path → contents) after the call. -/
structure VideoOut where
  result : Except JsError Buffer
  fs : List (String × Buffer)

/-- The `try` block of `videoToStickerWebp`: write the input temp file, run
ffmpeg (oracle `ffmpegRun`, applied to the job and the written input bytes;
on success the output file holds its result), read the output file back and
throw if it exceeds 1 MiB. -/
def videoStickerTry (ffmpegRun : FfmpegJob → Buffer → Except JsError Buffer)
    (opts : StickerOpts) (inPath outPath : String) (videoBuffer : Buffer)
    (fs : List (String × Buffer)) : Except JsError Buffer × List (String × Buffer) :=
  let fs1 := alSet inPath videoBuffer fs
  match ffmpegRun (videoJobSpec opts) videoBuffer with
  | .error err => (.error ⟨"FFmpeg error: " ++ err.message⟩, fs1)
  | .ok outBuf =>
    let fs2 := alSet outPath outBuf fs1
    match alGet outPath fs2 with
    | none => (.error ⟨"ENOENT"⟩, fs2)
    | some webpBuffer =>
      if 1024 * 1024 < webpBuffer.size then (.error ⟨stickerTooLargeVideoMessage⟩, fs2)
      else (.ok webpBuffer, fs2)

/-- `async function videoToStickerWebp(videoBuffer, opts)`: the `catch`
rethrows with the video-failure prefix (keeping the cause message), and the
`finally` unlinks both temp files on every exit path. -/
def videoToStickerWebp (ffmpegRun : FfmpegJob → Buffer → Except JsError Buffer)
    (opts : StickerOpts) (inPath outPath : String) (videoBuffer : Buffer)
    (fs : List (String × Buffer)) : VideoOut :=
  let body := videoStickerTry ffmpegRun opts inPath outPath videoBuffer fs
  let result : Except JsError Buffer :=
    match body.1 with
    | .ok b => .ok b
    | .error e => .error ⟨videoFailPrefix ++ e.message⟩
  ⟨result, alDel outPath (alDel inPath body.2)⟩

/-! ### Outbound payloads, shared state, external environment -/

/-- A `sock.sendMessage` payload. -/
inductive Payload where
  | text (s : String)
  | mentionText (s : String) (mentions : List String)
  | sticker (webp : Buffer) (mimetype : String) (isAnimated : Bool)
  | audio (bytes : Buffer) (mimetype : String)
  deriving DecidableEq

/-- One outbound message: destination jid and payload. -/
abbrev Sent := String × Payload

/-- The shared mutable state: the `rateLimits` map, the `groupMetadataCache`
and the temp-file system. -/
structure RouterState where
  rateLimits : List (String × RateEntry)
  groupCache : List (String × CacheEntry)
  fs : List (String × Buffer)
  deriving DecidableEq

/-- What a handler invocation produces: the messages it sent, its
returned-or-thrown outcome, and the state afterwards. -/
structure HandlerOut where
  sent : List Sent
  result : Except JsError Unit
  state : RouterState
  deriving DecidableEq

/-- A dynamically typed JS argument: the handlers with a declared-arity slip
receive the raw message object where a string is expected. -/
inductive JsVal where
  | str (s : String)
  | obj (m : MsgContent)
  deriving DecidableEq

/-- The external collaborators and per-invocation ambient data: the sharp and
ffmpeg pipelines, the optional Gemini client (`none` = no `GEMINI_API_KEY`),
gTTS, `sock.groupMetadata`, `OWNER_NUMBER`, the two `tmpPath` results and the
current instant. -/
structure Env where
  encodeWebp : ImageEncodeJob → Buffer → Except JsError Buffer
  ffmpegRun : FfmpegJob → Buffer → Except JsError Buffer
  gemini : Option (Buffer → String → Except JsError String)
  tts : String → String → Except JsError Buffer
  fetchMeta : Nat → String → GroupMeta
  ownerNumber : String
  inPath : String
  outPath : String
  now : Nat

/-! ### Jid normalization and command-text helpers -/

/-- `s.endsWith(suffix)`. -/
def jsEndsWith (s suffix : String) : Bool :=
  suffix.data.isSuffixOf s.data

/-- `s.trim()`. -/
def jsTrim (s : String) : String :=
  String.mk ((s.data.dropWhile Char.isWhitespace).reverse.dropWhile Char.isWhitespace).reverse

/-- `s.toLowerCase()`. -/
def jsToLower (s : String) : String :=
  String.mk (s.data.map Char.toLower)

/-- `.replace(/:[0-9]+@/, '@')` — replace the first `:digits@` occurrence by
`@` (the digit run is maximal and must be followed by `@`, so backtracking
never produces a different match). -/
def stripSessionOnce : List Char → List Char
  | [] => []
  | c :: rest =>
    if c = ':' then
      match rest.takeWhile Char.isDigit, rest.drop (rest.takeWhile Char.isDigit).length with
      | _ :: _, '@' :: after => '@' :: after
      | _, _ => c :: stripSessionOnce rest
    else c :: stripSessionOnce rest

/-- The character class `[^0-9@s.whatsapp.net]` keeps digits and the
characters of `@s.whatsapp.net`. -/
def jidKeepChar (c : Char) : Bool :=
  c.isDigit || ['@', 's', '.', 'w', 'h', 'a', 't', 'p', 'n', 'e'].contains c

/-- `x.replace(/:[0-9]+@/, '@').replace(/[^0-9@s.whatsapp.net]/g, '')`. -/
def normalizeJid (s : String) : String :=
  String.mk ((stripSessionOnce s.toList).filter jidKeepChar)

/-- `texto.replace(/^\s*!cmd\s*/i, '')` for a lowercase command word `cmd`:
strip leading whitespace, `!`, the case-insensitive command word and the
whitespace after it; return the input unchanged when the pattern does not
match at the start. -/
def stripCmdPrefix (cmd : String) (s : String) : String :=
  match s.toList.dropWhile Char.isWhitespace with
  | '!' :: r2 =>
    if (r2.take cmd.length).map Char.toLower = cmd.toList.map Char.toLower then
      String.mk ((r2.drop cmd.length).dropWhile Char.isWhitespace)
    else s
  | _ => s

/-- Maximal non-whitespace words of a character list. -/
def splitWsWords : List Char → List (List Char)
  | [] => []
  | c :: rest =>
    if c.isWhitespace then splitWsWords rest
    else
      (c :: rest.takeWhile (fun d => !d.isWhitespace)) ::
        splitWsWords (rest.drop (rest.takeWhile (fun d => !d.isWhitespace)).length)
  termination_by cs => cs.length
  decreasing_by
    · simp
    · simp only [List.length_cons, List.length_drop]
      omega

/-- `s.split(/\s+/)` for the trimmed strings this code applies it to: the
empty string yields `['']`, otherwise the whitespace-separated words (the
source only splits already-trimmed strings, so the leading-empty-element JS
edge case cannot arise). -/
def splitWs (s : String) : List String :=
  match splitWsWords s.toList with
  | [] => [""]
  | ws => ws.map String.mk

/-- `args.split(/\s+/)[0]` for a trimmed string. -/
def firstToken (s : String) : String :=
  (splitWs s).headD ""

/-! ### `!todos` (`marcarTodosInvisivel`, `handleTodos`) -/

/-- `groupMetadataCache.get(jid) || await sock.groupMetadata(jid)`. -/
def metadataFor (fetch : Nat → String → GroupMeta) (now : Nat) (jid : String)
    (cache : List (String × CacheEntry)) : GroupMeta :=
  match cacheGetAt now jid cache with
  | some e => e.meta
  | none => fetch now jid

/-- `async function marcarTodosInvisivel(jid, conteudo)`: send
`@everyone <conteudo>` mentioning every current participant. -/
def marcarTodosInvisivel (fetch : Nat → String → GroupMeta) (now : Nat)
    (jid conteudo : String) (cache : List (String × CacheEntry)) : List Sent :=
  let meta := metadataFor fetch now jid cache
  [(jid, .mentionText ("@everyone " ++ conteudo) (meta.participants.map (fun p => p.id)))]

def groupOnlyMessage : String := "❌ Este comando só funciona em grupos."

/-- `async function handleTodos(sock, jid, sender, texto)`.  The function
declares four parameters while the router calls handlers with five arguments,
so `texto` is bound to the raw message object (hence `conteudo` is `''`).
`isOwner` is computed (and logged) but never used to gate the broadcast. -/
def handleTodos (env : Env) (jid sender : String) (texto : JsVal) (st : RouterState) :
    HandlerOut :=
  if !(jsEndsWith jid "@g.us") then
    ⟨[(jid, .text groupOnlyMessage)], .ok (), st⟩
  else
    let normalizedSender := normalizeJid sender
    let normalizedOwner := normalizeJid env.ownerNumber
    let _isOwner := normalizedSender == normalizedOwner
    let conteudo := match texto with
      | .str s => jsTrim (stripCmdPrefix "todos" s)
      | .obj _ => ""
    ⟨marcarTodosInvisivel env.fetchMeta env.now jid conteudo st.groupCache, .ok (), st⟩

/-! ### `enviarFigurinha` -/

def stickerSendFailPrefix : String := "❌ Erro ao enviar figurinha: "

/-- `async function enviarFigurinha(sock, jid, media)`: image media runs the
image path with `{ size: 512, mode: 'contain' }` and is sent with
`isAnimated: false`; video media runs the video path with
`{ size: 512, fps: 10, maxDur: 8, mode: 'contain' }` and is sent with
`isAnimated: true`; its own `catch` turns any failure into a text reply. -/
def enviarFigurinha (encodeWebp : ImageEncodeJob → Buffer → Except JsError Buffer)
    (ffmpegRun : FfmpegJob → Buffer → Except JsError Buffer) (jid : String)
    (media : Media) (inPath outPath : String) (fs : List (String × Buffer)) :
    List Sent × List (String × Buffer) :=
  match media.kind with
  | .image =>
    match imageToStickerWebp encodeWebp media.buffer ⟨512, .contain⟩ with
    | .ok webp => ([(jid, .sticker webp "image/webp" false)], fs)
    | .error e => ([(jid, .text (stickerSendFailPrefix ++ e.message))], fs)
  | .video =>
    let out := videoToStickerWebp ffmpegRun ⟨8, 10, 512, .contain⟩ inPath outPath media.buffer fs
    match out.result with
    | .ok webp => ([(jid, .sticker webp "image/webp" true)], out.fs)
    | .error e => ([(jid, .text (stickerSendFailPrefix ++ e.message))], out.fs)

/-! ### Remaining handlers -/

/-- `async function buildMenu(jid, sender)`; `isGroup` is computed but unused.
`.filter(Boolean)` drops every empty string — the separator lines included. -/
def buildMenu (geminiConfigured : Bool) (jid sender : String) : String :=
  let _isGroup := jsEndsWith jid "@g.us"
  String.intercalate "\n"
    (([
      "📖 *Menu de Comandos*",
      "",
      "🖼 *Figurinhas & IA*",
      "• !sticker / !fig / !s → imagem = estática; vídeo/GIF (até 8s) = animada",
      "• !gifsticker → figurinha animada",
      "• !ocr → extrai texto de uma imagem",
      "• !imgtr [pt|en...] → OCR + tradução",
      "",
      "👥 *Grupo*",
      "• !todos [msg] → marca todos",
      "",
      "ℹ️ *Observações*",
      "• Figurinhas: máx. 512x512, até 1MB.",
      if !geminiConfigured then "• Configure GEMINI_API_KEY para !ocr e !imgtr." else ""
    ] : List String).filter (fun l => !(l == "")))

/-- `async function handleMenu(sock, jid, sender)`. -/
def handleMenu (env : Env) (jid sender : String) (st : RouterState) : HandlerOut :=
  ⟨[(jid, .text (buildMenu env.gemini.isSome jid sender))], .ok (), st⟩

/-- `async function handleSticker(sock, jid, sender, msg)`: failures of
`getMediaBuffer` propagate to the router; `enviarFigurinha` catches its own. -/
def handleSticker (env : Env) (jid : String) (m : MsgContent) (st : RouterState) : HandlerOut :=
  match getMediaBuffer m with
  | .error e => ⟨[], .error e, st⟩
  | .ok none =>
    ⟨[(jid, .text "❌ Envie uma imagem, vídeo curto ou GIF (ou responda a um).")], .ok (), st⟩
  | .ok (some media) =>
    let out := enviarFigurinha env.encodeWebp env.ffmpegRun jid media env.inPath env.outPath st.fs
    ⟨out.1, .ok (), ⟨st.rateLimits, st.groupCache, out.2⟩⟩

def geminiUnconfiguredMessage : String := "GEMINI_API_KEY não configurada"

/-- `async function ocrFromImageGemini(buffer)`: throws when no key is
configured; wraps a Gemini failure into its own categorized error. -/
def ocrFromImageGemini (gem : Option (Buffer → String → Except JsError String))
    (buffer : Buffer) : Except JsError String :=
  match gem with
  | none => .error ⟨geminiUnconfiguredMessage⟩
  | some g =>
    match g buffer "Extract text from this image" with
    | .error _ => .error ⟨"Falha ao extrair texto da imagem"⟩
    | .ok t => .ok t

/-- `async function ocrAndTranslateImageGemini(buffer, lang)`. -/
def ocrAndTranslateImageGemini (gem : Option (Buffer → String → Except JsError String))
    (buffer : Buffer) (lang : String) : Except JsError String :=
  match gem with
  | none => .error ⟨geminiUnconfiguredMessage⟩
  | some g =>
    match g buffer ("Extract text from this image and translate it to " ++ lang) with
    | .error _ => .error ⟨"Falha ao traduzir texto da imagem"⟩
    | .ok t => .ok t

/-- `async function handleOCR(sock, jid, sender, msg)`. -/
def handleOCR (env : Env) (jid sender : String) (m : MsgContent) (st : RouterState) :
    HandlerOut :=
  match getMediaBuffer m with
  | .error e => ⟨[], .error e, st⟩
  | .ok none => ⟨[(jid, .text "❌ Envie ou responda a uma *imagem* com !ocr.")], .ok (), st⟩
  | .ok (some media) =>
    if !(media.kind = .image) then
      ⟨[(jid, .text "❌ Envie ou responda a uma *imagem* com !ocr.")], .ok (), st⟩
    else
      match ocrFromImageGemini env.gemini media.buffer with
      | .error e => ⟨[], .error e, st⟩
      | .ok text =>
        ⟨[(jid, .text (if !(text == "") then "📝 *Texto reconhecido:*\n" ++ text
            else "⚠️ Nenhum texto encontrado."))], .ok (), st⟩

/-- `async function handleImageTranslate(sock, jid, sender, msg, texto)` —
this handler declares all five parameters, so `texto` really is the text. -/
def handleImageTranslate (env : Env) (jid sender : String) (m : MsgContent)
    (texto : JsVal) (st : RouterState) : HandlerOut :=
  match texto with
  | .obj _ => ⟨[(jid, .text "❌ Erro: Nenhum texto fornecido para !imgtr.")], .ok (), st⟩
  | .str s =>
    let args := jsTrim (stripCmdPrefix "imgtr" s)
    let tok := firstToken args
    let lang := jsToLower (if tok == "" then "pt" else tok)
    match getMediaBuffer m with
    | .error e => ⟨[], .error e, st⟩
    | .ok none =>
      ⟨[(jid, .text "❌ Envie ou responda a uma *imagem* com !imgtr [lang].")], .ok (), st⟩
    | .ok (some media) =>
      if !(media.kind = .image) then
        ⟨[(jid, .text "❌ Envie ou responda a uma *imagem* com !imgtr [lang].")], .ok (), st⟩
      else
        match ocrAndTranslateImageGemini env.gemini media.buffer lang with
        | .error e => ⟨[], .error e, st⟩
        | .ok translated =>
          ⟨[(jid, .text (if !(translated == "")
              then "🌐 *Tradução (" ++ lang ++ "):*\n" ++ translated
              else "⚠️ Nenhum texto para traduzir."))], .ok (), st⟩

/-- `async function handleTTS(sock, jid, sender, texto)`: like `handleTodos`
it declares four parameters, so `texto` is bound to the raw message object
and the usage error is always taken at the router's call site.  The temp mp3
is written and always unlinked in `finally`, a net no-op on the file state. -/
def handleTTS (env : Env) (jid : String) (texto : JsVal) (st : RouterState) : HandlerOut :=
  match texto with
  | .obj _ => ⟨[(jid, .text "❌ Erro: Nenhum texto fornecido para !tts.")], .ok (), st⟩
  | .str s =>
    let args := jsTrim (stripCmdPrefix "tts" s)
    let parts := splitWs args
    let lang := parts.headD ""
    let text := String.intercalate " " parts.tail
    if text == "" || lang == "" then
      ⟨[(jid, .text "❌ Use: !tts [pt|en|es] texto")], .ok (), st⟩
    else
      match env.tts lang text with
      | .error _ => ⟨[(jid, .text "❌ Falha ao gerar áudio.")], .ok (), st⟩
      | .ok audio => ⟨[(jid, .audio audio "audio/mpeg")], .ok (), st⟩

/-! ### Command table and router (`commands`, `startBot` upsert callback) -/

/-- Identifies which handler function a command entry points at;
`sticker` and `gifsticker` share `handleSticker`. -/
inductive HandlerId where
  | menu
  | sticker
  | ocr
  | imgtr
  | todos
  | tts
  deriving DecidableEq

/-- One entry of the `commands` object: `{ handler, aliases }`. -/
structure CmdEntry where
  handler : HandlerId
  aliases : List String
  deriving DecidableEq

/-- The `commands` object, in declaration order. -/
def commands : List (String × CmdEntry) :=
  [("menu", ⟨.menu, ["help", "ajuda"]⟩),
   ("sticker", ⟨.sticker, ["fig", "s"]⟩),
   ("gifsticker", ⟨.sticker, []⟩),
   ("ocr", ⟨.ocr, []⟩),
   ("imgtr", ⟨.imgtr, []⟩),
   ("todos", ⟨.todos, []⟩),
   ("tts", ⟨.tts, []⟩)]

/-- `Object.values(commands).find(c => c.aliases?.includes(cmdName) ||
c === commands[cmdName])`: each entry is a distinct object, so the identity
test `c === commands[cmdName]` holds exactly for the entry keyed `cmdName`. -/
def resolveCommand (cmdName : String) : Option CmdEntry :=
  (commands.find? (fun p => p.2.aliases.contains cmdName || p.1 == cmdName)).map
    (fun p => p.2)

def isWordChar (c : Char) : Bool := c.isAlphanum || c = '_'

/-- `texto.match(/^\s*!(\w+)/i)` followed by `match[1].toLowerCase()`. -/
def parseCommandToken (texto : String) : Option String :=
  match texto.data.dropWhile Char.isWhitespace with
  | '!' :: rest =>
    match rest.takeWhile isWordChar with
    | [] => none
    | w => some (String.mk (w.map Char.toLower))
  | _ => none

/-- JS `a || b` on a string-or-undefined `a`: the empty string is falsy. -/
def jsStrOr (a : Option String) (b : String) : String :=
  match a with
  | none => b
  | some s => if s == "" then b else s

/-- `msg.message.conversation || extendedTextMessage?.text ||
imageMessage?.caption || videoMessage?.caption || ''`. -/
def extractTexto (m : MsgContent) : String :=
  jsStrOr m.conversation
    (jsStrOr (m.extendedTextMessage.bind (fun e => e.text))
      (jsStrOr (m.imageMessage.bind (fun r => r.caption))
        (jsStrOr (m.videoMessage.bind (fun r => r.caption)) "")))

/-- One element of `m.messages`: the key fields and the content. -/
structure FullMsg where
  remoteJid : String
  keyParticipant : Option String
  participant : Option String
  message : Option MsgContent
  deriving DecidableEq

/-- `msg.key.participant || msg.participant || msg.key.remoteJid`. -/
def senderOf (msg : FullMsg) : String :=
  jsStrOr msg.keyParticipant (jsStrOr msg.participant msg.remoteJid)

/-- What processing one upsert event produces: the messages sent, the logger
lines, and the shared state afterwards. -/
structure ProcOut where
  sent : List Sent
  logs : List String
  state : RouterState
  deriving DecidableEq

def receiptLog (jid sender texto : String) : String :=
  "Mensagem recebida - JID: " ++ jid ++ ", Sender: " ++ sender ++ ", Texto: " ++ texto

def cmdErrorLog (cmdName msg : String) : String :=
  "Erro no comando " ++ cmdName ++ ": " ++ msg

/-- The reply the router's `catch` sends. -/
def errorReply (m : String) : String := "❌ Erro: " ++ m

/-- The `messages.upsert` callback of `startBot`, for one message, with the
dispatch abstracted as `runHandler`: guard on a missing content, extract
sender and text, parse and resolve the command token (silently returning on
failure), then run the rate limiter and the handler inside the single
`try`/`catch` that logs and replies with the failure-marker text. -/
def processMessage
    (runHandler : HandlerId → String → String → MsgContent → String → RouterState → HandlerOut)
    (now : Nat) (msg : FullMsg) (st : RouterState) : ProcOut :=
  match msg.message with
  | none => ⟨[], [], st⟩
  | some content =>
    let jid := msg.remoteJid
    let sender := senderOf msg
    let texto := extractTexto content
    let logs0 := [receiptLog jid sender texto]
    match parseCommandToken texto with
    | none => ⟨[], logs0, st⟩
    | some cmdName =>
      match resolveCommand cmdName with
      | none => ⟨[], logs0, st⟩
      | some entry =>
        let rateOut := checkRateLimit now sender st.rateLimits
        match rateOut.result with
        | .error e =>
          ⟨[(jid, .text (errorReply e.message))],
           logs0 ++ [cmdErrorLog cmdName e.message],
           ⟨rateOut.rl, st.groupCache, st.fs⟩⟩
        | .ok _ =>
          let hout := runHandler entry.handler jid sender content texto
            ⟨rateOut.rl, st.groupCache, st.fs⟩
          match hout.result with
          | .ok _ => ⟨hout.sent, logs0, hout.state⟩
          | .error e =>
            ⟨hout.sent ++ [(jid, .text (errorReply e.message))],
             logs0 ++ [cmdErrorLog cmdName e.message],
             hout.state⟩

/-- The concrete dispatch `cmd.handler(sock, jid, sender, msg, texto)`.
`handleTodos` and `handleTTS` declare only four parameters, so their last
parameter is bound to the message object; the others simply ignore the
trailing arguments they do not declare. -/
def dispatch (env : Env) :
    HandlerId → String → String → MsgContent → String → RouterState → HandlerOut
  | .menu, jid, sender, _m, _texto, st => handleMenu env jid sender st
  | .sticker, jid, _sender, m, _texto, st => handleSticker env jid m st
  | .ocr, jid, sender, m, _texto, st => handleOCR env jid sender m st
  | .imgtr, jid, sender, m, texto, st => handleImageTranslate env jid sender m (.str texto) st
  | .todos, jid, sender, m, _texto, st => handleTodos env jid sender (.obj m) st
  | .tts, jid, _sender, m, _texto, st => handleTTS env jid (.obj m) st

theorem alGet_alSet_self {β : Type} (k : String) (v : β) (m : List (String × β)) :
    alGet k (alSet k v m) = some v := by
  simp [alGet, alSet, List.find?]

theorem alGet_alDel_self {β : Type} (k : String) (m : List (String × β)) :
    alGet k (alDel k m) = none := by
  have hfind : List.find? (fun p => p.1 == k) (alDel k m) = none := by
    rw [List.find?_eq_none]
    intro x hx
    have hmem := List.of_mem_filter hx
    simpa using hmem
  simp [alGet, hfind]

theorem alGet_alDel_ne {β : Type} (k k' : String) (m : List (String × β)) (h : ¬ k = k') :
    alGet k (alDel k' m) = alGet k m := by
  induction m with
  | nil => rfl
  | cons hd t ih =>
    by_cases hp : hd.1 = k'
    · have e1 : (hd.1 == k') = true := by simp [hp]
      have e2 : (hd.1 == k) = false := by
        simp only [beq_eq_false_iff_ne, ne_eq, hp]
        exact fun hh => h hh.symm
      simp only [alGet, alDel, List.filter_cons, e1, Bool.not_true, if_false,
        List.find?_cons, e2] at *
      exact ih
    · have e1 : (hd.1 == k') = false := by simp [hp]
      by_cases hk : hd.1 = k
      · have e2 : (hd.1 == k) = true := by simp [hk]
        simp [alGet, alDel, List.filter_cons, e1, List.find?_cons, e2]
      · have e2 : (hd.1 == k) = false := by simp [hk]
        simp only [alGet, alDel, List.filter_cons, e1, Bool.not_false, if_true,
          List.find?_cons, e2] at *
        exact ih

theorem checkRateLimit_allow {sender : String} {rl : List (String × RateEntry)} {c R t : Nat}
    (h : alGet sender rl = some ⟨c, R⟩) (hc : c < RATE_LIMIT.max) (ht : t ≤ R) :
    checkRateLimit t sender rl = ⟨.ok (), alSet sender ⟨c + 1, R⟩ rl⟩ := by
  simp [checkRateLimit, h, Nat.not_lt.mpr ht, Nat.not_le.mpr hc]

theorem checkRateLimit_deny {sender : String} {rl : List (String × RateEntry)} {c R t : Nat}
    (h : alGet sender rl = some ⟨c, R⟩) (hc : RATE_LIMIT.max ≤ c) (ht : t ≤ R) :
    checkRateLimit t sender rl = ⟨.error ⟨rateLimitMessage⟩, rl⟩ := by
  simp [checkRateLimit, h, Nat.not_lt.mpr ht, hc]

theorem runRL_le (sender : String) (times : List Nat) :
    ∀ (rl : List (String × RateEntry)) (c R : Nat),
      alGet sender rl = some ⟨c, R⟩ → (∀ t ∈ times, t ≤ R) →
      (runRL sender times rl).fst ≤ RATE_LIMIT.max - c := by
  induction times with
  | nil => intro rl c R _ _; simp [runRL]
  | cons t ts ih =>
    intro rl c R h hall
    by_cases hc : c < RATE_LIMIT.max
    · have hstep := checkRateLimit_allow h hc (hall t (List.mem_cons_self t ts))
      have hget : alGet sender (alSet sender ⟨c + 1, R⟩ rl) = some ⟨c + 1, R⟩ :=
        alGet_alSet_self sender _ rl
      have hrest := ih (alSet sender ⟨c + 1, R⟩ rl) (c + 1) R hget
        (fun x hx => hall x (List.mem_cons_of_mem t hx))
      simp only [runRL, hstep]
      omega
    · have hc' : RATE_LIMIT.max ≤ c := Nat.not_lt.mp hc
      have hstep := checkRateLimit_deny h hc' (hall t (List.mem_cons_self t ts))
      have hrest := ih rl c R h (fun x hx => hall x (List.mem_cons_of_mem t hx))
      simp only [runRL, hstep]
      omega

/-- C1: within one established 60-second window (`resetTime = start + 60000`),
at most 5 calls to `checkRateLimit` succeed; once the counter has reached the
maximum, a further in-window attempt fails with the rate-limit error, leaves
the counter unchanged and does not move the window boundary. -/
theorem c1_rate_limit_window
    (sender sender2 : String) (start : Nat) (times : List Nat)
    (rl rl2 : List (String × RateEntry)) (c R now : Nat)
    (h1 : alGet sender rl = some ⟨0, start + RATE_LIMIT.windowMs⟩)
    (h2 : ∀ t ∈ times, t ≤ start + RATE_LIMIT.windowMs)
    (h3 : alGet sender2 rl2 = some ⟨c, R⟩)
    (h4 : RATE_LIMIT.max ≤ c)
    (h5 : now ≤ R) :
    (runRL sender times rl).fst ≤ RATE_LIMIT.max ∧
    checkRateLimit now sender2 rl2 = ⟨.error ⟨rateLimitMessage⟩, rl2⟩ := by
  constructor
  · simpa using runRL_le sender times rl 0 (start + RATE_LIMIT.windowMs) h1 h2
  · exact checkRateLimit_deny h3 h4 h5

/-- Concrete instantiation of `c1_rate_limit_window`: seven attempts inside
one window starting at 0 yield at most five successes, and the at-limit
attempt is rejected without touching the map. -/
theorem c1_rate_limit_window_witness :
    (runRL "a" [0, 1, 2, 3, 4, 5, 6] [("a", ⟨0, 60000⟩)]).fst ≤ RATE_LIMIT.max ∧
    checkRateLimit 30 "b" [("b", ⟨5, 60000⟩)] = ⟨.error ⟨rateLimitMessage⟩, [("b", ⟨5, 60000⟩)]⟩ :=
  c1_rate_limit_window "a" "b" 0 [0, 1, 2, 3, 4, 5, 6]
    [("a", ⟨0, 60000⟩)] [("b", ⟨5, 60000⟩)] 5 60000 30
    (by decide) (by decide) (by decide) (by decide) (by decide)

/-- C4 (counterexample): a message carrying a direct image attachment and a
quoted video attachment resolves to the quoted video, not the direct image,
so a direct attachment is not preferred over a quoted one. -/
theorem c4_media_priority_counterexample :
    getMediaBuffer ⟨none, some ⟨⟨[1]⟩, none⟩, none,
        some ⟨none, some ⟨some ⟨none, some ⟨⟨[2, 3]⟩, none⟩⟩⟩⟩⟩
      = .ok (some ⟨⟨[2, 3]⟩, .video⟩) ∧
    (MsgContent.imageMessage ⟨none, some ⟨⟨[1]⟩, none⟩, none,
        some ⟨none, some ⟨some ⟨none, some ⟨⟨[2, 3]⟩, none⟩⟩⟩⟩⟩) = some ⟨⟨[1]⟩, none⟩ ∧
    MediaKind.video ≠ MediaKind.image := by
  refine ⟨rfl, rfl, by decide⟩

/-- C4 (amended): media extraction first checks for a quoted message; when one
is present only its attachments are considered, image before video (and no
attachment at all when the quoted message carries none, even if the direct
message does); only when no quoted message exists are the direct attachments
considered, image before video. -/
theorem c4_media_priority_amended
    (m₁ m₂ m₃ m₄ m₅ : MsgContent) (q₁ q₂ q₅ : MediaView) (r₁ r₂ r₃ r₄ : MediaRef)
    (hq₁ : quotedOf m₁ = some q₁) (hi₁ : q₁.imageMessage = some r₁)
    (hs₁ : r₁.bytes.size ≤ 10 * 1024 * 1024)
    (hq₂ : quotedOf m₂ = some q₂) (hi₂ : q₂.imageMessage = none)
    (hv₂ : q₂.videoMessage = some r₂) (hs₂ : r₂.bytes.size ≤ 10 * 1024 * 1024)
    (hq₃ : quotedOf m₃ = none) (hi₃ : m₃.imageMessage = some r₃)
    (hs₃ : r₃.bytes.size ≤ 10 * 1024 * 1024)
    (hq₄ : quotedOf m₄ = none) (hi₄ : m₄.imageMessage = none)
    (hv₄ : m₄.videoMessage = some r₄) (hs₄ : r₄.bytes.size ≤ 10 * 1024 * 1024)
    (hq₅ : quotedOf m₅ = some q₅) (hi₅ : q₅.imageMessage = none)
    (hv₅ : q₅.videoMessage = none) :
    getMediaBuffer m₁ = .ok (some ⟨r₁.bytes, .image⟩) ∧
    getMediaBuffer m₂ = .ok (some ⟨r₂.bytes, .video⟩) ∧
    getMediaBuffer m₃ = .ok (some ⟨r₃.bytes, .image⟩) ∧
    getMediaBuffer m₄ = .ok (some ⟨r₄.bytes, .video⟩) ∧
    getMediaBuffer m₅ = .ok none := by
  refine ⟨?_, ?_, ?_, ?_, ?_⟩
  · simp [getMediaBuffer, hq₁, hi₁, Nat.not_lt.mpr hs₁]
  · simp [getMediaBuffer, hq₂, hi₂, hv₂, Nat.not_lt.mpr hs₂]
  · simp [getMediaBuffer, hq₃, hi₃, Nat.not_lt.mpr hs₃]
  · simp [getMediaBuffer, hq₄, hi₄, hv₄, Nat.not_lt.mpr hs₄]
  · simp [getMediaBuffer, hq₅, hi₅, hv₅]

/-- Concrete instantiation of `c4_media_priority_amended` on five small
messages, one per priority scenario. -/
theorem c4_media_priority_amended_witness :
    getMediaBuffer ⟨none, some ⟨⟨[9]⟩, none⟩, none,
        some ⟨none, some ⟨some ⟨some ⟨⟨[4]⟩, none⟩, some ⟨⟨[5]⟩, none⟩⟩⟩⟩⟩
      = .ok (some ⟨⟨[4]⟩, .image⟩) ∧
    getMediaBuffer ⟨none, none, none, some ⟨none, some ⟨some ⟨none, some ⟨⟨[5]⟩, none⟩⟩⟩⟩⟩
      = .ok (some ⟨⟨[5]⟩, .video⟩) ∧
    getMediaBuffer ⟨none, some ⟨⟨[6]⟩, none⟩, some ⟨⟨[7]⟩, none⟩, none⟩
      = .ok (some ⟨⟨[6]⟩, .image⟩) ∧
    getMediaBuffer ⟨none, none, some ⟨⟨[7]⟩, none⟩, none⟩
      = .ok (some ⟨⟨[7]⟩, .video⟩) ∧
    getMediaBuffer ⟨none, some ⟨⟨[8]⟩, none⟩, none, some ⟨none, some ⟨some ⟨none, none⟩⟩⟩⟩
      = .ok none :=
  c4_media_priority_amended
    ⟨none, some ⟨⟨[9]⟩, none⟩, none,
      some ⟨none, some ⟨some ⟨some ⟨⟨[4]⟩, none⟩, some ⟨⟨[5]⟩, none⟩⟩⟩⟩⟩
    ⟨none, none, none, some ⟨none, some ⟨some ⟨none, some ⟨⟨[5]⟩, none⟩⟩⟩⟩⟩
    ⟨none, some ⟨⟨[6]⟩, none⟩, some ⟨⟨[7]⟩, none⟩, none⟩
    ⟨none, none, some ⟨⟨[7]⟩, none⟩, none⟩
    ⟨none, some ⟨⟨[8]⟩, none⟩, none, some ⟨none, some ⟨some ⟨none, none⟩⟩⟩⟩
    ⟨some ⟨⟨[4]⟩, none⟩, some ⟨⟨[5]⟩, none⟩⟩
    ⟨none, some ⟨⟨[5]⟩, none⟩⟩
    ⟨none, none⟩
    ⟨⟨[4]⟩, none⟩ ⟨⟨[5]⟩, none⟩ ⟨⟨[6]⟩, none⟩ ⟨⟨[7]⟩, none⟩
    rfl rfl (by decide) rfl rfl rfl (by decide) rfl rfl (by decide)
    rfl rfl rfl (by decide) rfl rfl rfl

/-- C9: a roster cached at `T` is served only strictly before `T + 5min`; at
or after `T + 5min` the entry is no longer visible and the lookup fetches a
fresh roster from the transport (likewise when no entry exists), caching it
with a new 5-minute deadline. -/
theorem c9_group_cache_ttl
    (fetch : Nat → String → GroupMeta) (T now₁ now₂ now₃ : Nat) (jid jid₂ : String)
    (cache cache₂ : List (String × CacheEntry)) (meta : GroupMeta)
    (h1 : alGet jid cache = some ⟨meta, T + CACHE_TTL_MS⟩)
    (h2 : T + CACHE_TTL_MS ≤ now₂)
    (h3 : now₁ < T + CACHE_TTL_MS)
    (h4 : alGet jid₂ cache₂ = none) :
    getGroupAdmins fetch now₂ jid cache
      = (adminIds (fetch now₂ jid), alSet jid ⟨fetch now₂ jid, now₂ + CACHE_TTL_MS⟩ cache) ∧
    getGroupAdmins fetch now₁ jid cache = (adminIds meta, cache) ∧
    getGroupAdmins fetch now₃ jid₂ cache₂
      = (adminIds (fetch now₃ jid₂), alSet jid₂ ⟨fetch now₃ jid₂, now₃ + CACHE_TTL_MS⟩ cache₂) := by
  refine ⟨?_, ?_, ?_⟩
  · simp [getGroupAdmins, cacheGetAt, h1, Nat.not_lt.mpr h2]
  · simp [getGroupAdmins, cacheGetAt, h1, h3]
  · simp [getGroupAdmins, cacheGetAt, h4]

/-- Concrete instantiation of `c9_group_cache_ttl`: an entry cached at 0 is
served at instant 1 but replaced by a fresh fetch at instant 300000, and a
lookup on an empty cache fetches. -/
theorem c9_group_cache_ttl_witness :
    getGroupAdmins (fun _ _ => ⟨[⟨"u", some "admin"⟩]⟩) 300000 "g"
        [("g", ⟨⟨[⟨"v", some "admin"⟩]⟩, 300000⟩)]
      = (adminIds ((fun (_ : Nat) (_ : String) => (⟨[⟨"u", some "admin"⟩]⟩ : GroupMeta)) 300000 "g"),
         alSet "g" ⟨(fun (_ : Nat) (_ : String) => (⟨[⟨"u", some "admin"⟩]⟩ : GroupMeta)) 300000 "g",
           300000 + CACHE_TTL_MS⟩ [("g", ⟨⟨[⟨"v", some "admin"⟩]⟩, 300000⟩)]) ∧
    getGroupAdmins (fun _ _ => ⟨[⟨"u", some "admin"⟩]⟩) 1 "g"
        [("g", ⟨⟨[⟨"v", some "admin"⟩]⟩, 300000⟩)]
      = (adminIds ⟨[⟨"v", some "admin"⟩]⟩, [("g", ⟨⟨[⟨"v", some "admin"⟩]⟩, 300000⟩)]) ∧
    getGroupAdmins (fun _ _ => ⟨[⟨"u", some "admin"⟩]⟩) 7 "h" []
      = (adminIds ((fun (_ : Nat) (_ : String) => (⟨[⟨"u", some "admin"⟩]⟩ : GroupMeta)) 7 "h"),
         alSet "h" ⟨(fun (_ : Nat) (_ : String) => (⟨[⟨"u", some "admin"⟩]⟩ : GroupMeta)) 7 "h",
           7 + CACHE_TTL_MS⟩ []) :=
  c9_group_cache_ttl (fun _ _ => ⟨[⟨"u", some "admin"⟩]⟩) 0 1 300000 7 "g" "h"
    [("g", ⟨⟨[⟨"v", some "admin"⟩]⟩, 300000⟩)] [] ⟨[⟨"v", some "admin"⟩]⟩
    (by decide) (by decide) (by decide) (by decide)

theorem alGet_alDel_alDel {β : Type} (a b : String) (m : List (String × β)) :
    alGet a (alDel b (alDel a m)) = none := by
  by_cases h : a = b
  · subst h
    exact alGet_alDel_self a (alDel a m)
  · rw [alGet_alDel_ne a b (alDel a m) h]
    exact alGet_alDel_self a m

/-- C7: on every execution of the video sticker path — success, size-limit
failure, ffmpeg failure — neither the temp input file nor the temp output
file remains after the call. -/
theorem c7_video_temp_cleanup
    (ffmpegRun : FfmpegJob → Buffer → Except JsError Buffer) (opts : StickerOpts)
    (inPath outPath : String) (videoBuffer : Buffer) (fs : List (String × Buffer)) :
    alGet inPath (videoToStickerWebp ffmpegRun opts inPath outPath videoBuffer fs).fs = none ∧
    alGet outPath (videoToStickerWebp ffmpegRun opts inPath outPath videoBuffer fs).fs = none := by
  constructor
  · exact alGet_alDel_alDel inPath outPath _
  · exact alGet_alDel_self outPath _

theorem imageToStickerWebp_oversize_eq
    (encode : ImageEncodeJob → Buffer → Except JsError Buffer)
    (img : Buffer) (opts : ImageOpts) (big : Buffer)
    (h3 : encode (imageJobOf opts) img = .ok big) (h4 : 1024 * 1024 < big.size) :
    imageToStickerWebp encode img opts = .error ⟨imageStickerFailMessage⟩ := by
  simp [imageToStickerWebp, imageStickerTry, h3, h4]

theorem videoToStickerWebp_oversize_result
    (run : FfmpegJob → Buffer → Except JsError Buffer) (opts : StickerOpts)
    (pin pout : String) (vid : Buffer) (fs : List (String × Buffer)) (big : Buffer)
    (h1 : run (videoJobSpec opts) vid = .ok big) (h2 : 1024 * 1024 < big.size) :
    (videoToStickerWebp run opts pin pout vid fs).result
      = .error ⟨videoFailPrefix ++ stickerTooLargeVideoMessage⟩ := by
  simp [videoToStickerWebp, videoStickerTry, h1, alGet_alSet_self, h2]

/-- C3 (counterexample): when the encoder yields a buffer one byte over the
1 MiB ceiling, the image entry point does fail, but its surfaced error is the
generic image-processing failure, not the size error — the size error is
swallowed by the function's own `catch`. -/
theorem c3_sticker_size_counterexample :
    imageToStickerWebp (fun _ _ => .ok ⟨List.replicate 1048577 0⟩) ⟨[0]⟩ ⟨512, .cover⟩
      = .error ⟨imageStickerFailMessage⟩ ∧
    imageStickerFailMessage ≠ stickerTooLargeImageMessage := by
  constructor
  · exact imageToStickerWebp_oversize_eq _ _ _ ⟨List.replicate 1048577 0⟩ rfl
      (by show 1024 * 1024 < (List.replicate 1048577 0).length
          rw [List.length_replicate]
          omega)
  · decide

/-- C3 (amended): each sticker entry point either returns a buffer of at most
1 MiB — and then it is exactly the single encoder output, never a re-encode —
or fails; an oversized image encode surfaces as the generic image-processing
failure (the size error is wrapped by the image path's `catch`), while an
oversized video encode surfaces the 1 MB size message inside the
video-failure message. -/
theorem c3_sticker_size_amended
    (encode encode₂ : ImageEncodeJob → Buffer → Except JsError Buffer)
    (img img₂ b big : Buffer) (iopts iopts₂ : ImageOpts)
    (ffmpegRun ffmpegRun₂ : FfmpegJob → Buffer → Except JsError Buffer)
    (vopts vopts₂ : StickerOpts) (pin pout pin₂ pout₂ : String)
    (vid vid₂ vb vbig : Buffer)
    (fs fs₂ : List (String × Buffer))
    (h1 : imageToStickerWebp encode img iopts = .ok b)
    (h2 : (videoToStickerWebp ffmpegRun vopts pin pout vid fs).result = .ok vb)
    (h3 : encode₂ (imageJobOf iopts₂) img₂ = .ok big)
    (h4 : 1024 * 1024 < big.size)
    (h5 : ffmpegRun₂ (videoJobSpec vopts₂) vid₂ = .ok vbig)
    (h6 : 1024 * 1024 < vbig.size) :
    b.size ≤ 1024 * 1024 ∧ encode (imageJobOf iopts) img = .ok b ∧
    vb.size ≤ 1024 * 1024 ∧ ffmpegRun (videoJobSpec vopts) vid = .ok vb ∧
    imageToStickerWebp encode₂ img₂ iopts₂ = .error ⟨imageStickerFailMessage⟩ ∧
    (videoToStickerWebp ffmpegRun₂ vopts₂ pin₂ pout₂ vid₂ fs₂).result
      = .error ⟨videoFailPrefix ++ stickerTooLargeVideoMessage⟩ := by
  have himg : b.size ≤ 1024 * 1024 ∧ encode (imageJobOf iopts) img = .ok b := by
    unfold imageToStickerWebp imageStickerTry at h1
    rcases henc : encode (imageJobOf iopts) img with e | w
    · rw [henc] at h1; simp at h1
    · rw [henc] at h1
      by_cases hsz : 1024 * 1024 < w.size
      · simp [hsz] at h1
      · simp [hsz] at h1
        exact ⟨h1 ▸ Nat.not_lt.mp hsz, by rw [h1]⟩
  have hvid : vb.size ≤ 1024 * 1024 ∧ ffmpegRun (videoJobSpec vopts) vid = .ok vb := by
    unfold videoToStickerWebp videoStickerTry at h2
    rcases hrun : ffmpegRun (videoJobSpec vopts) vid with e | o
    · rw [hrun] at h2; simp at h2
    · rw [hrun] at h2
      by_cases hsz : 1024 * 1024 < o.size
      · simp [alGet_alSet_self, hsz] at h2
      · simp [alGet_alSet_self, hsz] at h2
        refine ⟨h2 ▸ Nat.not_lt.mp hsz, ?_⟩
        rw [h2]
  exact ⟨himg.1, himg.2, hvid.1, hvid.2, imageToStickerWebp_oversize_eq _ _ _ big h3 h4,
    videoToStickerWebp_oversize_result _ _ _ _ _ _ vbig h5 h6⟩

/-- Concrete instantiation of `c3_sticker_size_amended`: a small image and a
small video pass through unchanged, a 1 MiB + 1 byte image encode fails with
the generic message, and a 1 MiB + 1 byte video encode fails with the size
message inside the video-failure message. -/
theorem c3_sticker_size_amended_witness :
    Buffer.size ⟨[0]⟩ ≤ 1024 * 1024 ∧
    (fun (_ : ImageEncodeJob) (b : Buffer) => Except.ok (ε := JsError) b)
      (imageJobOf ⟨512, .cover⟩) ⟨[0]⟩ = .ok ⟨[0]⟩ ∧
    Buffer.size ⟨[1]⟩ ≤ 1024 * 1024 ∧
    (fun (_ : FfmpegJob) (_ : Buffer) => Except.ok (ε := JsError) (⟨[1]⟩ : Buffer))
      (videoJobSpec ⟨8, 10, 512, .cover⟩) ⟨[9]⟩ = .ok ⟨[1]⟩ ∧
    imageToStickerWebp (fun _ _ => .ok ⟨List.replicate 1048577 0⟩) ⟨[2]⟩ ⟨512, .contain⟩
      = .error ⟨imageStickerFailMessage⟩ ∧
    (videoToStickerWebp (fun _ _ => .ok ⟨List.replicate 1048577 0⟩) ⟨8, 10, 512, .contain⟩
        "in2.mp4" "out2.webp" ⟨[4]⟩ []).result
      = .error ⟨videoFailPrefix ++ stickerTooLargeVideoMessage⟩ :=
  c3_sticker_size_amended
    (fun _ b => .ok b) (fun _ _ => .ok ⟨List.replicate 1048577 0⟩)
    ⟨[0]⟩ ⟨[2]⟩ ⟨[0]⟩ ⟨List.replicate 1048577 0⟩ ⟨512, .cover⟩ ⟨512, .contain⟩
    (fun _ _ => .ok ⟨[1]⟩) (fun _ _ => .ok ⟨List.replicate 1048577 0⟩)
    ⟨8, 10, 512, .cover⟩ ⟨8, 10, 512, .contain⟩ "in.mp4" "out.webp" "in2.mp4" "out2.webp"
    ⟨[9]⟩ ⟨[4]⟩ ⟨[1]⟩ ⟨List.replicate 1048577 0⟩ [] []
    rfl rfl rfl
    (by show 1024 * 1024 < (List.replicate 1048577 0).length
        rw [List.length_replicate]
        omega)
    rfl
    (by show 1024 * 1024 < (List.replicate 1048577 0).length
        rw [List.length_replicate]
        omega)

/-- C2 (code bug): a non-owner sender in a group — the normalized sender and
owner identities differ — still triggers the mention-everyone broadcast,
because `handleTodos` computes `isOwner` but never branches on it. -/
theorem c2_todos_nonowner_broadcast_bug :
    normalizeJid "111222333@s.whatsapp.net" ≠ normalizeJid "558188345519@s.whatsapp.net" ∧
    (handleTodos
        ⟨fun _ b => .ok b, fun _ _ => .error ⟨"x"⟩, none, fun _ _ => .error ⟨"x"⟩,
          fun _ _ => ⟨[⟨"111222333@s.whatsapp.net", none⟩, ⟨"444@s.whatsapp.net", none⟩]⟩,
          "558188345519@s.whatsapp.net", "i", "o", 0⟩
        "123@g.us" "111222333@s.whatsapp.net" (.obj ⟨none, none, none, none⟩)
        ⟨[], [], []⟩).sent
      = [("123@g.us", .mentionText "@everyone "
          ["111222333@s.whatsapp.net", "444@s.whatsapp.net"])] := by
  constructor
  · decide
  · rfl

/-- C6: the ffmpeg job the video sticker path assembles (for the options
`enviarFigurinha` passes) truncates the input to its first 8 seconds, strips
audio, caps the frame rate at 10 fps and fits a fixed 512×512 square; and the
outcome of the video path depends on the ffmpeg oracle only through that job,
so for every video input only the so-constrained invocation matters. -/
theorem c6_video_job_constraints
    (run₁ run₂ : FfmpegJob → Buffer → Except JsError Buffer)
    (encode : ImageEncodeJob → Buffer → Except JsError Buffer)
    (jid inPath outPath : String) (buf : Buffer) (fs : List (String × Buffer))
    (h : run₁ (videoJobSpec ⟨8, 10, 512, .contain⟩) buf
       = run₂ (videoJobSpec ⟨8, 10, 512, .contain⟩) buf) :
    enviarFigurinha encode run₁ jid ⟨buf, .video⟩ inPath outPath fs
      = enviarFigurinha encode run₂ jid ⟨buf, .video⟩ inPath outPath fs ∧
    (videoJobSpec ⟨8, 10, 512, .contain⟩).truncateSeconds = 8 ∧
    (videoJobSpec ⟨8, 10, 512, .contain⟩).noAudio = true ∧
    (videoJobSpec ⟨8, 10, 512, .contain⟩).fps ≤ 10 ∧
    (videoJobSpec ⟨8, 10, 512, .contain⟩).width = 512 ∧
    (videoJobSpec ⟨8, 10, 512, .contain⟩).height = 512 := by
  refine ⟨?_, rfl, rfl, by decide, rfl, rfl⟩
  simp only [enviarFigurinha, videoToStickerWebp, videoStickerTry, h]

/-- Concrete instantiation of `c6_video_job_constraints` with two equal
ffmpeg oracles. -/
theorem c6_video_job_constraints_witness :
    enviarFigurinha (fun _ b => .ok b) (fun _ _ => .ok ⟨[3]⟩) "c" ⟨⟨[9]⟩, .video⟩ "i" "o" []
      = enviarFigurinha (fun _ b => .ok b) (fun _ _ => .ok ⟨[3]⟩) "c" ⟨⟨[9]⟩, .video⟩ "i" "o" [] ∧
    (videoJobSpec ⟨8, 10, 512, .contain⟩).truncateSeconds = 8 ∧
    (videoJobSpec ⟨8, 10, 512, .contain⟩).noAudio = true ∧
    (videoJobSpec ⟨8, 10, 512, .contain⟩).fps ≤ 10 ∧
    (videoJobSpec ⟨8, 10, 512, .contain⟩).width = 512 ∧
    (videoJobSpec ⟨8, 10, 512, .contain⟩).height = 512 :=
  c6_video_job_constraints (fun _ _ => .ok ⟨[3]⟩) (fun _ _ => .ok ⟨[3]⟩)
    (fun _ b => .ok b) "c" "i" "o" ⟨[9]⟩ [] rfl

/-- C5: for an event whose command resolves, an error thrown by the rate
limiter or by the handler is absorbed at the router boundary: processing
still returns (the embedding is total on these branches by construction),
the error is logged with the command name, and exactly one text reply
prefixed with the failure marker (`❌ Erro: `) is appended — nothing else is
sent beyond what the handler had already sent. -/
theorem c5_router_error_boundary
    (runHandler : HandlerId → String → String → MsgContent → String → RouterState → HandlerOut)
    (now now₂ : Nat) (msg msg₂ : FullMsg) (st st₂ : RouterState)
    (content content₂ : MsgContent) (cmdName cmdName₂ : String) (entry entry₂ : CmdEntry)
    (e e₂ : JsError) (hout : HandlerOut)
    (h1m : msg.message = some content)
    (h1p : parseCommandToken (extractTexto content) = some cmdName)
    (h1r : resolveCommand cmdName = some entry)
    (h1e : (checkRateLimit now (senderOf msg) st.rateLimits).result = .error e)
    (h2m : msg₂.message = some content₂)
    (h2p : parseCommandToken (extractTexto content₂) = some cmdName₂)
    (h2r : resolveCommand cmdName₂ = some entry₂)
    (h2ok : (checkRateLimit now₂ (senderOf msg₂) st₂.rateLimits).result = .ok ())
    (h2h : runHandler entry₂.handler msg₂.remoteJid (senderOf msg₂) content₂
        (extractTexto content₂)
        ⟨(checkRateLimit now₂ (senderOf msg₂) st₂.rateLimits).rl, st₂.groupCache, st₂.fs⟩
      = hout)
    (h2e : hout.result = .error e₂) :
    processMessage runHandler now msg st
      = ⟨[(msg.remoteJid, .text (errorReply e.message))],
         [receiptLog msg.remoteJid (senderOf msg) (extractTexto content),
          cmdErrorLog cmdName e.message],
         ⟨(checkRateLimit now (senderOf msg) st.rateLimits).rl, st.groupCache, st.fs⟩⟩ ∧
    processMessage runHandler now₂ msg₂ st₂
      = ⟨hout.sent ++ [(msg₂.remoteJid, .text (errorReply e₂.message))],
         [receiptLog msg₂.remoteJid (senderOf msg₂) (extractTexto content₂),
          cmdErrorLog cmdName₂ e₂.message],
         hout.state⟩ := by
  constructor
  · simp [processMessage, h1m, h1p, h1r, h1e]
  · simp [processMessage, h2m, h2p, h2r, h2ok, h2h, h2e]

/-- Concrete instantiation of `c5_router_error_boundary`: a sender already at
the limit gets the rate-limit error reply; a handler that throws `boom` gets
the `❌ Erro: boom` reply. -/
theorem c5_router_error_boundary_witness :
    processMessage (fun _ _ _ _ _ s => ⟨[], .error ⟨"boom"⟩, s⟩) 50
        ⟨"c", some "s", none, some ⟨some "!menu", none, none, none⟩⟩
        ⟨[("s", ⟨5, 100⟩)], [], []⟩
      = ⟨[("c", .text (errorReply rateLimitMessage))],
         [receiptLog "c" "s" "!menu", cmdErrorLog "menu" rateLimitMessage],
         ⟨[("s", ⟨5, 100⟩)], [], []⟩⟩ ∧
    processMessage (fun _ _ _ _ _ s => ⟨[], .error ⟨"boom"⟩, s⟩) 7
        ⟨"d", some "t", none, some ⟨some "!menu", none, none, none⟩⟩
        ⟨[], [], []⟩
      = ⟨[] ++ [("d", .text (errorReply "boom"))],
         [receiptLog "d" "t" "!menu", cmdErrorLog "menu" "boom"],
         ⟨[("t", ⟨1, 7⟩)], [], []⟩⟩ :=
  c5_router_error_boundary (fun _ _ _ _ _ s => ⟨[], .error ⟨"boom"⟩, s⟩)
    50 7
    ⟨"c", some "s", none, some ⟨some "!menu", none, none, none⟩⟩
    ⟨"d", some "t", none, some ⟨some "!menu", none, none, none⟩⟩
    ⟨[("s", ⟨5, 100⟩)], [], []⟩ ⟨[], [], []⟩
    ⟨some "!menu", none, none, none⟩ ⟨some "!menu", none, none, none⟩
    "menu" "menu" ⟨.menu, ["help", "ajuda"]⟩ ⟨.menu, ["help", "ajuda"]⟩
    ⟨rateLimitMessage⟩ ⟨"boom"⟩ ⟨[], .error ⟨"boom"⟩, ⟨[("t", ⟨1, 7⟩)], [], []⟩⟩
    rfl rfl rfl rfl rfl rfl rfl rfl rfl rfl

/-- C8: an event whose body has no leading `!word` token, and one whose token
resolves to no registered command or alias, send nothing and leave the whole
shared state — the rate-limit map, the group-metadata cache and the temp-file
system — exactly unchanged. -/
theorem c8_no_command_noop
    (runHandler : HandlerId → String → String → MsgContent → String → RouterState → HandlerOut)
    (now now₂ : Nat) (msg msg₂ : FullMsg) (st st₂ : RouterState)
    (content content₂ : MsgContent) (cmdName₂ : String)
    (h1m : msg.message = some content)
    (h1p : parseCommandToken (extractTexto content) = none)
    (h2m : msg₂.message = some content₂)
    (h2p : parseCommandToken (extractTexto content₂) = some cmdName₂)
    (h2r : resolveCommand cmdName₂ = none) :
    (processMessage runHandler now msg st).sent = [] ∧
    (processMessage runHandler now msg st).state = st ∧
    (processMessage runHandler now₂ msg₂ st₂).sent = [] ∧
    (processMessage runHandler now₂ msg₂ st₂).state = st₂ := by
  refine ⟨?_, ?_, ?_, ?_⟩ <;>
    simp [processMessage, h1m, h1p, h2m, h2p, h2r]

/-- Concrete instantiation of `c8_no_command_noop`: the body `hello world`
parses no command; the body `!unknown` resolves to no command. -/
theorem c8_no_command_noop_witness :
    (processMessage (fun _ _ _ _ _ s => ⟨[], .ok (), s⟩) 3
        ⟨"c", none, none, some ⟨some "hello world", none, none, none⟩⟩
        ⟨[("s", ⟨2, 9⟩)], [], []⟩).sent = [] ∧
    (processMessage (fun _ _ _ _ _ s => ⟨[], .ok (), s⟩) 3
        ⟨"c", none, none, some ⟨some "hello world", none, none, none⟩⟩
        ⟨[("s", ⟨2, 9⟩)], [], []⟩).state = ⟨[("s", ⟨2, 9⟩)], [], []⟩ ∧
    (processMessage (fun _ _ _ _ _ s => ⟨[], .ok (), s⟩) 4
        ⟨"d", none, none, some ⟨some "!unknown", none, none, none⟩⟩
        ⟨[], [("g", ⟨⟨[]⟩, 9⟩)], []⟩).sent = [] ∧
    (processMessage (fun _ _ _ _ _ s => ⟨[], .ok (), s⟩) 4
        ⟨"d", none, none, some ⟨some "!unknown", none, none, none⟩⟩
        ⟨[], [("g", ⟨⟨[]⟩, 9⟩)], []⟩).state = ⟨[], [("g", ⟨⟨[]⟩, 9⟩)], []⟩ :=
  c8_no_command_noop (fun _ _ _ _ _ s => ⟨[], .ok (), s⟩) 3 4
    ⟨"c", none, none, some ⟨some "hello world", none, none, none⟩⟩
    ⟨"d", none, none, some ⟨some "!unknown", none, none, none⟩⟩
    ⟨[("s", ⟨2, 9⟩)], [], []⟩ ⟨[], [("g", ⟨⟨[]⟩, 9⟩)], []⟩
    ⟨some "hello world", none, none, none⟩ ⟨some "!unknown", none, none, none⟩
    "unknown" rfl rfl rfl rfl rfl

theorem handleSticker_ignores_conversation (env : Env) (jid : String)
    (c₁ c₂ : Option String) (img vid : Option MediaRef) (ext : Option ExtTextMsg) :
    handleSticker env jid ⟨c₁, img, vid, ext⟩ = handleSticker env jid ⟨c₂, img, vid, ext⟩ :=
  rfl

/-- C10: `gifsticker` and `sticker` (with aliases `fig`, `s`) resolve to the
same handler, so an event differing only in which of the two command words
its body carries sends the same messages and leaves the same state; in
particular an image attachment yields a static sticker sent with
`isAnimated = false` on either command. -/
theorem c10_gifsticker_equiv
    (env : Env) (now : Nat) (jid pin pout : String) (kp pp : Option String)
    (img vid : Option MediaRef) (ext : Option ExtTextMsg) (st : RouterState)
    (buf webp : Buffer) (fsb : List (String × Buffer))
    (henc : env.encodeWebp (imageJobOf ⟨512, .contain⟩) buf = .ok webp)
    (hsz : webp.size ≤ 1024 * 1024) :
    (resolveCommand "gifsticker").map CmdEntry.handler = some HandlerId.sticker ∧
    (resolveCommand "sticker").map CmdEntry.handler = some HandlerId.sticker ∧
    (resolveCommand "fig").map CmdEntry.handler = some HandlerId.sticker ∧
    (resolveCommand "s").map CmdEntry.handler = some HandlerId.sticker ∧
    (processMessage (dispatch env) now
        ⟨jid, kp, pp, some ⟨some "!gifsticker", img, vid, ext⟩⟩ st).sent
      = (processMessage (dispatch env) now
          ⟨jid, kp, pp, some ⟨some "!sticker", img, vid, ext⟩⟩ st).sent ∧
    (processMessage (dispatch env) now
        ⟨jid, kp, pp, some ⟨some "!gifsticker", img, vid, ext⟩⟩ st).state
      = (processMessage (dispatch env) now
          ⟨jid, kp, pp, some ⟨some "!sticker", img, vid, ext⟩⟩ st).state ∧
    enviarFigurinha env.encodeWebp env.ffmpegRun jid ⟨buf, .image⟩ pin pout fsb
      = ([(jid, .sticker webp "image/webp" false)], fsb) := by
  have e1 : parseCommandToken (extractTexto ⟨some "!gifsticker", img, vid, ext⟩)
      = some "gifsticker" := rfl
  have e2 : parseCommandToken (extractTexto ⟨some "!sticker", img, vid, ext⟩)
      = some "sticker" := rfl
  have r1 : resolveCommand "gifsticker" = some ⟨HandlerId.sticker, []⟩ := rfl
  have r2 : resolveCommand "sticker" = some ⟨HandlerId.sticker, ["fig", "s"]⟩ := rfl
  refine ⟨rfl, rfl, rfl, rfl, ?_, ?_, ?_⟩
  · simp only [processMessage, senderOf, e1, e2, r1, r2, dispatch]
    rcases hrl : (checkRateLimit now (jsStrOr kp (jsStrOr pp jid)) st.rateLimits).result
      with e | u
    · rfl
    · rw [handleSticker_ignores_conversation env jid (some "!gifsticker") (some "!sticker")
        img vid ext]
      rcases hh : (handleSticker env jid ⟨some "!sticker", img, vid, ext⟩
          ⟨(checkRateLimit now (jsStrOr kp (jsStrOr pp jid)) st.rateLimits).rl,
            st.groupCache, st.fs⟩).result with e' | u' <;> rfl
  · simp only [processMessage, senderOf, e1, e2, r1, r2, dispatch]
    rcases hrl : (checkRateLimit now (jsStrOr kp (jsStrOr pp jid)) st.rateLimits).result
      with e | u
    · rfl
    · rw [handleSticker_ignores_conversation env jid (some "!gifsticker") (some "!sticker")
        img vid ext]
      rcases hh : (handleSticker env jid ⟨some "!sticker", img, vid, ext⟩
          ⟨(checkRateLimit now (jsStrOr kp (jsStrOr pp jid)) st.rateLimits).rl,
            st.groupCache, st.fs⟩).result with e' | u' <;> rfl
  · simp [enviarFigurinha, imageToStickerWebp, imageStickerTry, henc, Nat.not_lt.mpr hsz]

/-- Concrete instantiation of `c10_gifsticker_equiv` on a one-byte image
buffer and a transparent environment. -/
theorem c10_gifsticker_equiv_witness :
    (resolveCommand "gifsticker").map CmdEntry.handler = some HandlerId.sticker ∧
    (resolveCommand "sticker").map CmdEntry.handler = some HandlerId.sticker ∧
    (resolveCommand "fig").map CmdEntry.handler = some HandlerId.sticker ∧
    (resolveCommand "s").map CmdEntry.handler = some HandlerId.sticker ∧
    (processMessage
        (dispatch ⟨fun _ b => .ok b, fun _ _ => .ok ⟨[3]⟩, none, fun _ _ => .error ⟨"x"⟩,
          fun _ _ => ⟨[]⟩, "5@s.whatsapp.net", "i", "o", 0⟩) 2
        ⟨"c", none, none, some ⟨some "!gifsticker", some ⟨⟨[7]⟩, none⟩, none, none⟩⟩
        ⟨[], [], []⟩).sent
      = (processMessage
          (dispatch ⟨fun _ b => .ok b, fun _ _ => .ok ⟨[3]⟩, none, fun _ _ => .error ⟨"x"⟩,
            fun _ _ => ⟨[]⟩, "5@s.whatsapp.net", "i", "o", 0⟩) 2
          ⟨"c", none, none, some ⟨some "!sticker", some ⟨⟨[7]⟩, none⟩, none, none⟩⟩
          ⟨[], [], []⟩).sent ∧
    (processMessage
        (dispatch ⟨fun _ b => .ok b, fun _ _ => .ok ⟨[3]⟩, none, fun _ _ => .error ⟨"x"⟩,
          fun _ _ => ⟨[]⟩, "5@s.whatsapp.net", "i", "o", 0⟩) 2
        ⟨"c", none, none, some ⟨some "!gifsticker", some ⟨⟨[7]⟩, none⟩, none, none⟩⟩
        ⟨[], [], []⟩).state
      = (processMessage
          (dispatch ⟨fun _ b => .ok b, fun _ _ => .ok ⟨[3]⟩, none, fun _ _ => .error ⟨"x"⟩,
            fun _ _ => ⟨[]⟩, "5@s.whatsapp.net", "i", "o", 0⟩) 2
          ⟨"c", none, none, some ⟨some "!sticker", some ⟨⟨[7]⟩, none⟩, none, none⟩⟩
          ⟨[], [], []⟩).state ∧
    enviarFigurinha (fun _ b => .ok b) (fun _ _ => .ok ⟨[3]⟩) "c" ⟨⟨[7]⟩, .image⟩ "i" "o" []
      = ([("c", .sticker ⟨[7]⟩ "image/webp" false)], []) :=
  c10_gifsticker_equiv
    ⟨fun _ b => .ok b, fun _ _ => .ok ⟨[3]⟩, none, fun _ _ => .error ⟨"x"⟩,
      fun _ _ => ⟨[]⟩, "5@s.whatsapp.net", "i", "o", 0⟩
    2 "c" "i" "o" none none (some ⟨⟨[7]⟩, none⟩) none none ⟨[], [], []⟩
    ⟨[7]⟩ ⟨[7]⟩ [] rfl (by decide)

end BotWA
